import Mathlib

/-!
# Verification of `payroll_system.py` (Team-Payroll-System)

Shallow embedding of the core of `src/payroll_system.py`:
`EmployeeDatabase` (employee CRUD over the SQLite `employees` table),
`TimeTracker` (the `time_entries` table and the regular/overtime split),
and `PayrollCalculator` (gross/tax/net computation and 2-decimal rounding).

Modelling conventions:

* The two SQLite tables are modelled as Lean lists of rows (`employees`,
  `time_entries`) plus the `AUTOINCREMENT` counter for `entry_id`
  (SQLite starts it at 1).  Both `EmployeeDatabase` and `TimeTracker`
  operate on the same underlying database file, so a single `DBState`
  carries both tables.
* Python `float` arithmetic is modelled exactly over `ℚ`; Python `int`
  over `ℤ`; Python `round(x, 2)` (round-half-to-even) is `round2`.
* Dates are carried as their ISO strings; `entry_date` never influences
  any computation verified here, the caller supplies it.
* Python `str.strip()` is `pyStrip`.
* A Python function that may `raise` is modelled as
  `Except (PyError × DBState) DBState`: the error case carries the
  database state at the moment of the raise, so "nothing was persisted
  by a failed call" is the statement that the carried state equals the
  input state.  A read-only computation returns `Except PyError α`.
* The source raises `ValueError` for validation, duplicate-id and
  missing-employee-reference failures and `KeyError` for lookups of
  absent employees.  The error taxonomy of the specification
  (ValidationError / DuplicateKeyError / NotFoundError / ReferenceError)
  names the distinct raise conditions; `PyError` has one constructor per
  taxonomy element and `pythonExceptionClass` records the concrete
  Python exception class each one corresponds to in the source.
-/

/-- Python `str.strip()`: drop leading and trailing whitespace.
In this Lean version `String` is a structure over `List Char`, so the
translation works on the character list directly (which also keeps the
function kernel-reducible). -/
def pyStrip (s : String) : String :=
  ⟨((s.data.dropWhile Char.isWhitespace).reverse.dropWhile Char.isWhitespace).reverse⟩

/-- A row of the `employees` table
(`id TEXT PRIMARY KEY, name TEXT NOT NULL, hourly_rate REAL, dependents INTEGER`). -/
structure Employee where
  id : String
  name : String
  hourly_rate : ℚ
  dependents : ℤ
deriving DecidableEq, Repr

/-- A row of the `time_entries` table
(`entry_id INTEGER PRIMARY KEY AUTOINCREMENT, employee_id TEXT, entry_date TEXT,
regular_hours REAL, overtime_hours REAL`). -/
structure TimeEntry where
  entry_id : ℕ
  employee_id : String
  entry_date : String
  regular_hours : ℚ
  overtime_hours : ℚ
deriving DecidableEq, Repr

/-- The shared SQLite database: both tables plus the `AUTOINCREMENT`
counter for `time_entries.entry_id` (SQLite assigns 1 to the first row). -/
structure DBState where
  employees : List Employee
  time_entries : List TimeEntry
  next_entry_id : ℕ
deriving DecidableEq, Repr

/-- The freshly initialised database produced by `_create_tables`:
both tables empty, first `entry_id` will be 1. -/
def emptyDB : DBState := ⟨[], [], 1⟩

/-- The specification's error taxonomy (§7), one constructor per distinct
raise condition of the source.  In the Python source the first three are
all raised as `ValueError` (distinguished only by message and raise
site) and `notFoundError` is raised as `KeyError`; see
`pythonExceptionClass`. -/
inductive PyError where
  | validationError
  | duplicateKeyError
  | notFoundError
  | referenceError
deriving DecidableEq, Repr

/-- The concrete Python exception class each taxonomy element is raised
as in `payroll_system.py`. -/
def pythonExceptionClass : PyError → String
  | .validationError => "ValueError"
  | .duplicateKeyError => "ValueError"
  | .referenceError => "ValueError"
  | .notFoundError => "KeyError"

/-- `EmployeeDatabase.get_employee` (lines 151-156):
`SELECT * FROM employees WHERE id = ?` then `fetchone()`, i.e. the first
row whose `id` column equals the argument, `none` on a miss. -/
def get_employee (db : DBState) (employee_id : String) : Option Employee :=
  db.employees.find? (fun e => e.id == employee_id)

/-- `EmployeeDatabase.add_employee` (lines 116-149): strip id and name,
validate (empty id, empty name, negative rate, negative dependents, in
that order), reject a duplicate id, otherwise `INSERT` and commit. -/
def add_employee (db : DBState) (employee_id name : String)
    (hourly_rate : ℚ) (dependents : ℤ) : Except (PyError × DBState) DBState :=
  let employee_id := pyStrip employee_id
  let name := pyStrip name
  if employee_id = "" then .error (.validationError, db)
  else if name = "" then .error (.validationError, db)
  else if hourly_rate < 0 then .error (.validationError, db)
  else if dependents < 0 then .error (.validationError, db)
  else if (get_employee db employee_id).isSome then .error (.duplicateKeyError, db)
  else .ok { db with employees := db.employees ++ [⟨employee_id, name, hourly_rate, dependents⟩] }

/-- `EmployeeDatabase.update_employee` (lines 158-197): raise `KeyError`
if the id is absent; then, in order, validate each supplied field
(name stripped and non-empty, rate non-negative, dependents
non-negative), raise `ValueError` if no field was supplied, and finally
apply all supplied fields to the rows matching the id via a single SQL
`UPDATE`. -/
def update_employee (db : DBState) (employee_id : String)
    (name : Option String) (hourly_rate : Option ℚ) (dependents : Option ℤ) :
    Except (PyError × DBState) DBState :=
  match get_employee db employee_id with
  | none => .error (.notFoundError, db)
  | some _ =>
    let stripped := name.map pyStrip
    if stripped = some "" then .error (.validationError, db)
    else if hourly_rate.any (fun q => decide (q < 0)) then .error (.validationError, db)
    else if dependents.any (fun z => decide (z < 0)) then .error (.validationError, db)
    else if name.isNone && hourly_rate.isNone && dependents.isNone then
      .error (.validationError, db)
    else .ok { db with employees := db.employees.map (fun e =>
        if e.id = employee_id then
          { e with name := stripped.getD e.name,
                   hourly_rate := hourly_rate.getD e.hourly_rate,
                   dependents := dependents.getD e.dependents }
        else e) }

/-- `EmployeeDatabase.delete_employee` (lines 199-203):
`DELETE FROM employees WHERE id = ?` and commit; idempotent, no error on
a missing id.  Only the `employees` table is touched: the schema's
`ON DELETE CASCADE` clause is inert at runtime because SQLite keeps
foreign-key enforcement OFF unless a connection issues
`PRAGMA foreign_keys = ON`, which this code never does, so the matching
`time_entries` rows are NOT removed. -/
def delete_employee (db : DBState) (employee_id : String) : DBState :=
  { db with employees := db.employees.filter (fun e => e.id ≠ employee_id) }

/-- Ordering of the `ORDER BY id` clause: ascending employee id
(SQLite's default BINARY collation agrees with the code-point order of
Lean's `String` ordering on these ids). -/
def idLe (a b : Employee) : Prop := a.id ≤ b.id

instance : DecidableRel idLe := fun a b => inferInstanceAs (Decidable (a.id ≤ b.id))

instance : IsTotal Employee idLe := ⟨fun a b => le_total a.id b.id⟩

instance : IsTrans Employee idLe := ⟨fun _ _ _ h1 h2 => le_trans h1 h2⟩

/-- `EmployeeDatabase.list_employees` (lines 205-209):
`SELECT * FROM employees ORDER BY id`, i.e. the rows sorted by ascending id. -/
def list_employees (db : DBState) : List Employee :=
  List.insertionSort idLe db.employees

/-- `TimeTracker.record_hours` (lines 239-266): reject negative hours,
reject an `employee_id` absent from `employees`, otherwise split the
hours against the tracker's `overtime_threshold`
(`reg = min(hours_worked, threshold)`, `ot = max(0.0, hours_worked - threshold)`)
and `INSERT` a fresh row into `time_entries`. -/
def record_hours (overtime_threshold : ℚ) (db : DBState) (employee_id : String)
    (hours_worked : ℚ) (entry_date : String) : Except (PyError × DBState) DBState :=
  if hours_worked < 0 then .error (.validationError, db)
  else if (get_employee db employee_id).isNone then .error (.referenceError, db)
  else
    let reg_hours := min hours_worked overtime_threshold
    let ot_hours := max 0 (hours_worked - overtime_threshold)
    .ok { db with
      time_entries := db.time_entries ++
        [⟨db.next_entry_id, employee_id, entry_date, reg_hours, ot_hours⟩],
      next_entry_id := db.next_entry_id + 1 }

/-- `TimeTracker.summarise_hours` (lines 277-288):
`SELECT SUM(regular_hours), SUM(overtime_hours) FROM time_entries WHERE employee_id = ?`,
with SQL's NULL sum over an empty selection replaced by `0.0`
(`row["regular_sum"] or 0.0`). -/
def summarise_hours (db : DBState) (employee_id : String) : ℚ × ℚ :=
  (((db.time_entries.filter (fun t => t.employee_id == employee_id)).map
      (fun t => t.regular_hours)).sum,
   ((db.time_entries.filter (fun t => t.employee_id == employee_id)).map
      (fun t => t.overtime_hours)).sum)

/-- `PayrollCalculator.STATE_TAX_RATE` (line 319). -/
def STATE_TAX_RATE : ℚ := 0.056

/-- `PayrollCalculator.FEDERAL_TAX_RATE` (line 320). -/
def FEDERAL_TAX_RATE : ℚ := 0.079

/-- `PayrollCalculator.OVERTIME_MULTIPLIER` (line 321). -/
def OVERTIME_MULTIPLIER : ℚ := 1.5

/-- The `PayResult` dataclass (lines 298-309). -/
structure PayResult where
  employee_id : String
  name : String
  hours_worked : ℚ
  hourly_rate : ℚ
  regular_hours : ℚ
  overtime_hours : ℚ
  gross_pay : ℚ
  state_tax : ℚ
  federal_tax : ℚ
  net_pay : ℚ
deriving DecidableEq, Repr

/-- Python's `round` to an integer: round half to even (banker's
rounding); on a non-tie it agrees with rounding to the nearest integer. -/
def roundHalfEven (q : ℚ) : ℤ :=
  if Int.fract q = 1/2 then (if ⌊q⌋ % 2 = 0 then ⌊q⌋ else ⌊q⌋ + 1) else round q

/-- Python's `round(x, 2)`: round half to even at the second decimal. -/
def round2 (q : ℚ) : ℚ := (roundHalfEven (q * 100) : ℚ) / 100

/-- `PayrollCalculator.calculate_employee_pay` (lines 327-354): raise
`KeyError` for an absent employee; otherwise sum the stored hours,
compute `gross = reg*rate + ot*rate*OVERTIME_MULTIPLIER`, the two taxes
as flat fractions of gross, `net = gross - state_tax - federal_tax`,
and round the four monetary fields to 2 decimals in the constructed
`PayResult` (the hour fields are not rounded). -/
def calculate_employee_pay (db : DBState) (employee_id : String) :
    Except PyError PayResult :=
  match get_employee db employee_id with
  | none => .error .notFoundError
  | some row =>
    let reg_hours := (summarise_hours db employee_id).1
    let ot_hours := (summarise_hours db employee_id).2
    let total_hours := reg_hours + ot_hours
    let gross := reg_hours * row.hourly_rate + ot_hours * row.hourly_rate * OVERTIME_MULTIPLIER
    let state_tax := gross * STATE_TAX_RATE
    let federal_tax := gross * FEDERAL_TAX_RATE
    let net := gross - state_tax - federal_tax
    .ok ⟨employee_id, row.name, total_hours, row.hourly_rate, reg_hours, ot_hours,
         round2 gross, round2 state_tax, round2 federal_tax, round2 net⟩

/-- The loop body of `PayrollCalculator.calculate_all` (lines 356-361):
compute `calculate_employee_pay` for each listed row in order,
propagating the first failure (the Python loop would let the exception
escape). -/
def calcList (db : DBState) : List Employee → Except PyError (List PayResult)
  | [] => .ok []
  | row :: rest =>
    match calculate_employee_pay db row.id with
    | .error e => .error e
    | .ok r =>
      match calcList db rest with
      | .error e => .error e
      | .ok rs => .ok (r :: rs)

/-- `PayrollCalculator.calculate_all` (lines 356-361): one
`calculate_employee_pay` per row of `list_employees`, in that order. -/
def calculate_all (db : DBState) : Except PyError (List PayResult) :=
  calcList db (list_employees db)

/-! ## Helper lemmas -/

/-- The per-entry split always recombines to the recorded hours, for any
threshold. -/
lemma min_add_max_split (h t : ℚ) : min h t + max 0 (h - t) = h := by
  rcases le_total h t with h1 | h1
  · rw [min_eq_left h1, max_eq_left (by linarith : h - t ≤ 0)]; ring
  · rw [min_eq_right h1, max_eq_right (by linarith : (0:ℚ) ≤ h - t)]; ring

/-- Round-half-even lands within a half of its argument. -/
lemma abs_roundHalfEven_sub_le (q : ℚ) : |(roundHalfEven q : ℚ) - q| ≤ 1/2 := by
  unfold roundHalfEven
  by_cases hf : Int.fract q = 1/2
  · have h1 : q - (⌊q⌋ : ℚ) = 1/2 := by
      rw [Int.self_sub_floor, hf]
    rw [if_pos hf]
    by_cases hev : ⌊q⌋ % 2 = 0
    · rw [if_pos hev]
      have e1 : ((⌊q⌋ : ℤ) : ℚ) - q = -(1/2) := by linarith
      rw [e1, abs_neg, abs_of_nonneg (by norm_num : (0:ℚ) ≤ 1/2)]
    · rw [if_neg hev]
      have e1 : (((⌊q⌋ + 1 : ℤ)) : ℚ) - q = 1/2 := by push_cast; linarith
      rw [e1, abs_of_nonneg (by norm_num : (0:ℚ) ≤ 1/2)]
  · rw [if_neg hf]
    have h2 := abs_sub_round q
    rwa [abs_sub_comm] at h2

/-- Rounding to two decimals moves a rational by at most 1/200 = 0.005. -/
lemma abs_round2_sub_le (q : ℚ) : |round2 q - q| ≤ 1/200 := by
  have h2 : |(roundHalfEven (q * 100) : ℚ) - q * 100| ≤ 1/2 := abs_roundHalfEven_sub_le _
  have h3 : round2 q - q = ((roundHalfEven (q * 100) : ℚ) - q * 100) / 100 := by
    unfold round2; ring
  rw [h3, abs_div, abs_of_pos (by norm_num : (0:ℚ) < 100)]
  linarith

/-- A stored employee row is always found by its own id. -/
lemma get_employee_isSome_of_mem (db : DBState) (e : Employee)
    (hmem : e ∈ db.employees) : (get_employee db e.id).isSome := by
  unfold get_employee
  cases hfind : db.employees.find? (fun x => x.id == e.id) with
  | some _ => rfl
  | none =>
    rw [List.find?_eq_none] at hfind
    exact absurd (by simp) (hfind e hmem)

/-- `find?` by id commutes with mapping an id-preserving function over
the table. -/
lemma find?_map_id_pres (g : Employee → Employee) (hg : ∀ e, (g e).id = e.id)
    (i : String) (l : List Employee) :
    (l.map g).find? (fun e => e.id == i) = (l.find? (fun e => e.id == i)).map g := by
  induction l with
  | nil => rfl
  | cons x xs ih =>
    have hgx : ((g x).id == i) = (x.id == i) := by rw [hg]
    cases hpx : (x.id == i) with
    | true => simp [List.find?, hgx, hpx]
    | false => simp [List.find?, hgx, hpx, ih]

/-- If every listed row is found in the store, the calculation loop
succeeds and pairs each row with its own `calculate_employee_pay`
result. -/
lemma calcList_ok (db : DBState) (l : List Employee)
    (hall : ∀ row ∈ l, (get_employee db row.id).isSome) :
    ∃ rs, calcList db l = .ok rs ∧
      List.Forall₂ (fun row res => calculate_employee_pay db row.id = .ok res) l rs := by
  induction l with
  | nil => exact ⟨[], rfl, List.Forall₂.nil⟩
  | cons x xs ih =>
    have hx := hall x (by simp)
    rw [Option.isSome_iff_exists] at hx
    obtain ⟨row, hrow⟩ := hx
    have hcalc : ∃ r, calculate_employee_pay db x.id = .ok r := by
      unfold calculate_employee_pay; rw [hrow]; exact ⟨_, rfl⟩
    obtain ⟨r, hr⟩ := hcalc
    obtain ⟨rs, hrs, hfa⟩ := ih (fun row hm => hall row (by simp [hm]))
    exact ⟨r :: rs, by simp [calcList, hr, hrs], List.Forall₂.cons hr hfa⟩

/-! ## Concrete scenario states -/

/-- The store after adding employee `E1` (name `Ada`, rate 10). -/
def dbOne : DBState := ⟨[⟨"E1", "Ada", 10, 0⟩], [], 1⟩

/-- `dbOne` after recording 50 hours for `E1`: the entry is split 40/10. -/
def dbOne50 : DBState := ⟨[⟨"E1", "Ada", 10, 0⟩], [⟨1, "E1", "2026-01-05", 40, 10⟩], 2⟩

/-- The pay result for `E1` after 50 recorded hours at rate 10. -/
def prFifty : PayResult := ⟨"E1", "Ada", 50, 10, 40, 10, 550, 30.8, 43.45, 475.75⟩

lemma add_emp_dbOne : add_employee emptyDB "E1" "Ada" 10 0 = .ok dbOne := by
  have h1 : pyStrip "E1" = "E1" := by decide
  have h2 : pyStrip "Ada" = "Ada" := by decide
  have h3 : ("E1" : String) ≠ "" := by decide
  have h4 : ("Ada" : String) ≠ "" := by decide
  norm_num [add_employee, get_employee, emptyDB, dbOne, h1, h2, h3, h4]

lemma record_dbOne50 : record_hours 40 dbOne "E1" 50 "2026-01-05" = .ok dbOne50 := by
  simp [record_hours, get_employee, dbOne, dbOne50]
  norm_num [min_def, max_def]

lemma calc_dbOne50 : calculate_employee_pay dbOne50 "E1" = .ok prFifty := by
  simp [calculate_employee_pay, get_employee, summarise_hours, dbOne50, prFifty]
  norm_num [round2, roundHalfEven, Int.fract, round_eq,
    STATE_TAX_RATE, FEDERAL_TAX_RATE, OVERTIME_MULTIPLIER]

/-- `dbOne` after recording 5 hours for `E1` (entry split 5/0). -/
def dbOne5 : DBState := ⟨[⟨"E1", "Ada", 10, 0⟩], [⟨1, "E1", "2026-01-05", 5, 0⟩], 2⟩

/-! ## Claim theorems -/

/-- C1: the claim says `delete(id)` removes the employee together with
every time entry referencing it, leaving no entry with that employee id
in storage, and that a later `calculateOne(id)` fails with
`NotFoundError`.  The code deletes only the `employees` row (SQLite
never enforces the schema's `ON DELETE CASCADE` because
`PRAGMA foreign_keys = ON` is never issued), so after deleting `E1` its
recorded time entry is still in `time_entries` — contradicting the
claim and `delete_employee`'s own docstring — while `calculateOne` does
fail with the not-found error as claimed. -/
theorem delete_employee_leaves_orphan_entries :
    record_hours 40 dbOne "E1" 5 "2026-01-05" = .ok dbOne5 ∧
    (delete_employee dbOne5 "E1").time_entries.filter
      (fun t => t.employee_id == "E1") = [⟨1, "E1", "2026-01-05", 5, 0⟩] ∧
    get_employee (delete_employee dbOne5 "E1") "E1" = none ∧
    calculate_employee_pay (delete_employee dbOne5 "E1") "E1" = .error .notFoundError := by
  refine ⟨?_, ?_, ?_, ?_⟩
  · simp [record_hours, get_employee, dbOne, dbOne5]
    norm_num [min_def, max_def]
  · simp [delete_employee, dbOne5]
  · simp [get_employee, delete_employee, dbOne5]
  · simp [calculate_employee_pay, get_employee, delete_employee, dbOne5]

/-- C2: for hours `h ≥ 0` and any threshold `t`, a successful
`record_hours` appends exactly one entry with
`regular = min h t` and `overtime = max 0 (h - t)`, and the persisted
split recombines to `h` exactly. -/
theorem record_hours_split (t h : ℚ) (db : DBState) (i d : String)
    (hh : 0 ≤ h) (hex : (get_employee db i).isSome) :
    record_hours t db i h d = .ok { db with
        time_entries := db.time_entries ++
          [⟨db.next_entry_id, i, d, min h t, max 0 (h - t)⟩],
        next_entry_id := db.next_entry_id + 1 } ∧
    min h t + max 0 (h - t) = h := by
  constructor
  · obtain ⟨e, he⟩ := Option.isSome_iff_exists.mp hex
    simp [record_hours, he, not_lt.mpr hh]
  · exact min_add_max_split h t

/-- Witness for `record_hours_split` at threshold 40 and 50 hours. -/
theorem record_hours_split_witness :
    record_hours 40 dbOne "E1" 50 "2026-01-05" = .ok { dbOne with
        time_entries := dbOne.time_entries ++
          [⟨dbOne.next_entry_id, "E1", "2026-01-05", min 50 40, max 0 (50 - 40)⟩],
        next_entry_id := dbOne.next_entry_id + 1 } ∧
    min (50:ℚ) 40 + max 0 (50 - 40) = 50 :=
  record_hours_split 40 50 dbOne "E1" "2026-01-05" (by norm_num)
    (by simp [get_employee, dbOne])

/-- C3: the worked scenario — employee at rate 10 with a single recorded
entry of 50 hours: regular 40, overtime 10, gross 550.00, state tax
30.80, federal tax 43.45, net 475.75. -/
theorem scenario_rate10_hours50 :
    add_employee emptyDB "E1" "Ada" 10 0 = .ok dbOne ∧
    record_hours 40 dbOne "E1" 50 "2026-01-05" = .ok dbOne50 ∧
    calculate_employee_pay dbOne50 "E1" =
      .ok ⟨"E1", "Ada", 50, 10, 40, 10, 550, 30.8, 43.45, 475.75⟩ :=
  ⟨add_emp_dbOne, record_dbOne50, by rw [calc_dbOne50]; rfl⟩

/-- C5: recording non-negative hours for an employee id absent from the
store fails with the reference error (a taxonomy kind distinct from the
validation error), and the state carried by the failure is the input
state — nothing was persisted. -/
theorem record_hours_nonexistent_employee (t h : ℚ) (db : DBState) (i d : String)
    (hh : 0 ≤ h) (habs : get_employee db i = none) :
    record_hours t db i h d = .error (.referenceError, db) ∧
    PyError.referenceError ≠ PyError.validationError := by
  refine ⟨?_, by decide⟩
  simp [record_hours, habs, not_lt.mpr hh]

/-- Witness for `record_hours_nonexistent_employee` on the empty store. -/
theorem record_hours_nonexistent_employee_witness :
    record_hours 40 emptyDB "E1" 5 "2026-01-05" = .error (.referenceError, emptyDB) ∧
    PyError.referenceError ≠ PyError.validationError :=
  record_hours_nonexistent_employee 40 5 emptyDB "E1" "2026-01-05" (by norm_num) rfl

/-- An employee at hourly rate 0.1 with a single recorded entry of one
hour: gross pay is 0.10, and the independently rounded tax fields make
the rounded output fields violate the net-pay identity. -/
def dbTiny : DBState := ⟨[⟨"E1", "Ada", 1/10, 0⟩], [⟨1, "E1", "2026-01-05", 1, 0⟩], 2⟩

/-- The pay result computed from `dbTiny`: gross 0.10, state tax 0.01,
federal tax 0.01, net 0.09 (and 0.10 - 0.01 - 0.01 = 0.08 ≠ 0.09). -/
def prTiny : PayResult := ⟨"E1", "Ada", 1, 1/10, 1, 0, 1/10, 1/100, 1/100, 9/100⟩

/-- C4 counterexample: for the employee of `dbTiny` (rate 0.1, one hour
recorded) the four monetary fields are rounded independently, and the
rounded outputs give net 0.09 but gross − state − federal = 0.08, so
the claimed identity on the rounded output fields is false. -/
theorem rounded_net_identity_fails :
    calculate_employee_pay dbTiny "E1" = .ok prTiny ∧
    prTiny.net_pay ≠ prTiny.gross_pay - prTiny.state_tax - prTiny.federal_tax := by
  constructor
  · simp [calculate_employee_pay, get_employee, summarise_hours, dbTiny, prTiny]
    norm_num [round2, roundHalfEven, Int.fract, round_eq,
      STATE_TAX_RATE, FEDERAL_TAX_RATE, OVERTIME_MULTIPLIER]
  · norm_num [prTiny]

/-- Summing four independent 2-decimal roundings keeps the net identity
within 0.02. -/
lemma round2_net_bound (g s f : ℚ) :
    |round2 (g - s - f) - (round2 g - round2 s - round2 f)| ≤ 1/50 := by
  obtain ⟨l1, u1⟩ := abs_le.mp (abs_round2_sub_le (g - s - f))
  obtain ⟨l2, u2⟩ := abs_le.mp (abs_round2_sub_le g)
  obtain ⟨l3, u3⟩ := abs_le.mp (abs_round2_sub_le s)
  obtain ⟨l4, u4⟩ := abs_le.mp (abs_round2_sub_le f)
  rw [abs_le]
  constructor <;> linarith

/-- C4 (amended): in every successful `calculate_employee_pay` the
unrounded values satisfy `net = gross − stateTax − federalTax` exactly;
each of the four monetary output fields is the 2-decimal rounding of
its unrounded value, applied once at result construction; the rounded
fields themselves satisfy the identity only up to 0.02. -/
theorem pay_fields_rounded_once (db : DBState) (i : String) (r : PayResult)
    (hok : calculate_employee_pay db i = .ok r) :
    ∃ emp, get_employee db i = some emp ∧
      (let reg := (summarise_hours db i).1
       let ot := (summarise_hours db i).2
       let gross := reg * emp.hourly_rate + ot * emp.hourly_rate * OVERTIME_MULTIPLIER
       let state_tax := gross * STATE_TAX_RATE
       let federal_tax := gross * FEDERAL_TAX_RATE
       r.gross_pay = round2 gross ∧
       r.state_tax = round2 state_tax ∧
       r.federal_tax = round2 federal_tax ∧
       r.net_pay = round2 (gross - state_tax - federal_tax) ∧
       |r.net_pay - (r.gross_pay - r.state_tax - r.federal_tax)| ≤ 1/50) := by
  unfold calculate_employee_pay at hok
  cases hget : get_employee db i with
  | none => rw [hget] at hok; exact absurd hok (by simp)
  | some emp =>
    rw [hget] at hok
    simp only [Except.ok.injEq] at hok
    subst hok
    exact ⟨emp, rfl, rfl, rfl, rfl, rfl, round2_net_bound _ _ _⟩

/-- Witness for `pay_fields_rounded_once` at the rate-10, 50-hours
scenario state. -/
theorem pay_fields_rounded_once_witness :
    ∃ emp, get_employee dbOne50 "E1" = some emp ∧
      (let reg := (summarise_hours dbOne50 "E1").1
       let ot := (summarise_hours dbOne50 "E1").2
       let gross := reg * emp.hourly_rate + ot * emp.hourly_rate * OVERTIME_MULTIPLIER
       let state_tax := gross * STATE_TAX_RATE
       let federal_tax := gross * FEDERAL_TAX_RATE
       prFifty.gross_pay = round2 gross ∧
       prFifty.state_tax = round2 state_tax ∧
       prFifty.federal_tax = round2 federal_tax ∧
       prFifty.net_pay = round2 (gross - state_tax - federal_tax) ∧
       |prFifty.net_pay - (prFifty.gross_pay - prFifty.state_tax - prFifty.federal_tax)| ≤ 1/50) :=
  pay_fields_rounded_once dbOne50 "E1" prFifty calc_dbOne50

/-- C6: if the (stripped) id is already stored, a further `add_employee`
with that id and otherwise valid arguments fails with the duplicate-key
error, carrying the unchanged store — the stored record is untouched. -/
theorem add_duplicate_id (db : DBState) (i n : String) (r : ℚ) (dep : ℤ)
    (emp : Employee) (hdup : get_employee db (pyStrip i) = some emp)
    (hi : pyStrip i ≠ "") (hn : pyStrip n ≠ "") (hr : 0 ≤ r) (hdep : 0 ≤ dep) :
    add_employee db i n r dep = .error (.duplicateKeyError, db) ∧
    get_employee db (pyStrip i) = some emp := by
  refine ⟨?_, hdup⟩
  simp [add_employee, hi, hn, not_lt.mpr hr, not_lt.mpr hdep, hdup]

/-- Witness for `add_duplicate_id`: a second add of `E1` against `dbOne`. -/
theorem add_duplicate_id_witness :
    add_employee dbOne "E1" "Bob" 30 0 = .error (.duplicateKeyError, dbOne) ∧
    get_employee dbOne (pyStrip "E1") = some ⟨"E1", "Ada", 10, 0⟩ :=
  add_duplicate_id dbOne "E1" "Bob" 30 0 ⟨"E1", "Ada", 10, 0⟩
    (by decide) (by decide) (by decide) (by norm_num) (by norm_num)

/-- C7: `update_employee` fails with the not-found error on an absent
id; fails with the validation error when no field is supplied; and for
an existing employee and any non-empty valid subset of supplied fields
it changes exactly the supplied fields of that employee, leaving its
unsupplied fields, every other employee record, and the time-entry
table unchanged. -/
theorem update_applies_only_supplied_fields :
    (∀ (db : DBState) (i : String) (nm : Option String) (hr : Option ℚ) (dp : Option ℤ),
      get_employee db i = none →
      update_employee db i nm hr dp = .error (.notFoundError, db)) ∧
    (∀ (db : DBState) (i : String) (emp : Employee),
      get_employee db i = some emp →
      update_employee db i none none none = .error (.validationError, db)) ∧
    (∀ (db : DBState) (i : String) (nm : Option String) (hr : Option ℚ) (dp : Option ℤ)
        (emp : Employee),
      get_employee db i = some emp →
      (∀ s, nm = some s → pyStrip s ≠ "") →
      (∀ q, hr = some q → 0 ≤ q) →
      (∀ z, dp = some z → 0 ≤ z) →
      (nm.isSome ∨ hr.isSome ∨ dp.isSome) →
      ∃ db2, update_employee db i nm hr dp = .ok db2 ∧
        db2.time_entries = db.time_entries ∧
        db2.next_entry_id = db.next_entry_id ∧
        db2.employees = db.employees.map (fun e =>
          if e.id = i then
            { e with name := (nm.map pyStrip).getD e.name,
                     hourly_rate := hr.getD e.hourly_rate,
                     dependents := dp.getD e.dependents }
          else e) ∧
        get_employee db2 i = some
          ⟨emp.id, (nm.map pyStrip).getD emp.name, hr.getD emp.hourly_rate,
           dp.getD emp.dependents⟩ ∧
        (∀ e ∈ db.employees, e.id ≠ i → e ∈ db2.employees) ∧
        (∀ e ∈ db2.employees, e.id ≠ i → e ∈ db.employees)) := by
  refine ⟨?_, ?_, ?_⟩
  · intro db i nm hr dp hnone
    simp [update_employee, hnone]
  · intro db i emp hsome
    simp [update_employee, hsome]
  · intro db i nm hr dp emp hget hnm hhr hdp hone
    have hc1 : ¬(nm.map pyStrip = some "") := by
      cases nm with
      | none => simp
      | some s => simpa using hnm s rfl
    have hc2 : hr.any (fun q => decide (q < 0)) = false := by
      cases hr with
      | none => rfl
      | some q => simpa using not_lt.mpr (hhr q rfl)
    have hc3 : dp.any (fun z => decide (z < 0)) = false := by
      cases dp with
      | none => rfl
      | some z => simpa using not_lt.mpr (hdp z rfl)
    have hc4 : (nm.isNone && hr.isNone && dp.isNone) = false := by
      cases nm <;> cases hr <;> cases dp <;> simp_all
    have hemp_id : emp.id = i := by
      have := List.find?_some hget
      simpa using this
    have hgid : ∀ e : Employee,
        ((fun e : Employee =>
          if e.id = i then
            { e with name := (nm.map pyStrip).getD e.name,
                     hourly_rate := hr.getD e.hourly_rate,
                     dependents := dp.getD e.dependents }
          else e) e).id = e.id := by
      intro e
      by_cases h : e.id = i <;> simp [h]
    refine ⟨{ db with employees := db.employees.map (fun e =>
        if e.id = i then
          { e with name := (nm.map pyStrip).getD e.name,
                   hourly_rate := hr.getD e.hourly_rate,
                   dependents := dp.getD e.dependents }
        else e) }, ?_, rfl, rfl, rfl, ?_, ?_, ?_⟩
    · simp [update_employee, hget, hc1, hc2, hc3, hc4]
    · simp only [get_employee]
      rw [find?_map_id_pres _ hgid i db.employees]
      unfold get_employee at hget
      rw [hget]
      simp [hemp_id]
    · intro e he hne
      have hmem := List.mem_map_of_mem (fun e : Employee =>
        if e.id = i then
          { e with name := (nm.map pyStrip).getD e.name,
                   hourly_rate := hr.getD e.hourly_rate,
                   dependents := dp.getD e.dependents }
        else e) he
      simpa [hne] using hmem
    · intro e he hne
      obtain ⟨a, ha, hae⟩ := List.mem_map.mp he
      by_cases h : a.id = i
      · have hid : e.id = a.id := by rw [← hae]; simp [h]
        exact absurd (hid.trans h) hne
      · have hea : e = a := by rw [← hae]; simp [h]
        rwa [hea]

/-- Witness for `update_applies_only_supplied_fields`: the not-found
branch on the empty store (with an invalid supplied name, showing the
hypotheses hold concretely) and a partial update of `E1` in `dbOne`
supplying name and rate but not dependents. -/
theorem update_applies_only_supplied_fields_witness :
    update_employee emptyDB "E9" none none none = .error (.notFoundError, emptyDB) ∧
    ∃ db2, update_employee dbOne "E1" (some "Bea") (some 12) none = .ok db2 ∧
      get_employee db2 "E1" = some ⟨"E1", "Bea", 12, 0⟩ := by
  constructor
  · exact update_applies_only_supplied_fields.1 emptyDB "E9" none none none rfl
  · obtain ⟨db2, hok, -, -, -, hgot, -, -⟩ :=
      update_applies_only_supplied_fields.2.2 dbOne "E1" (some "Bea") (some 12) none
        ⟨"E1", "Ada", 10, 0⟩ rfl
        (by intro s hs; cases hs; decide)
        (by intro q hq; cases hq; norm_num)
        (by intro z hz; cases hz)
        (Or.inl rfl)
    exact ⟨db2, hok, hgot⟩

/-- C8: `calculate_all` always succeeds, returning exactly one result
per employee of `list_employees` in the same order, each equal to the
`calculate_employee_pay` result for that employee's id in the same
state; and `list_employees` is the employee table sorted by ascending
id. -/
theorem calculate_all_matches_calculate_one (db : DBState) :
    ∃ results, calculate_all db = .ok results ∧
      List.Forall₂ (fun row res => calculate_employee_pay db row.id = .ok res)
        (list_employees db) results ∧
      List.Sorted idLe (list_employees db) ∧
      (list_employees db).Perm db.employees := by
  have hperm : (list_employees db).Perm db.employees :=
    List.perm_insertionSort idLe db.employees
  have hall : ∀ row ∈ list_employees db, (get_employee db row.id).isSome := by
    intro row hrow
    exact get_employee_isSome_of_mem db row (hperm.mem_iff.mp hrow)
  obtain ⟨rs, hok, hfa⟩ := calcList_ok db (list_employees db) hall
  exact ⟨rs, hok, hfa, List.sorted_insertionSort idLe db.employees, hperm⟩

/-- The store with a single employee `E1` at rate 20 and no entries. -/
def dbTwenty : DBState := ⟨[⟨"E1", "Ada", 20, 0⟩], [], 1⟩

/-- `dbTwenty` after recording 38 hours (split 38/0). -/
def db38 : DBState := ⟨[⟨"E1", "Ada", 20, 0⟩], [⟨1, "E1", "2026-01-05", 38, 0⟩], 2⟩

/-- `db38` after also recording 5 hours (split 5/0). -/
def db38'5 : DBState :=
  ⟨[⟨"E1", "Ada", 20, 0⟩], [⟨1, "E1", "2026-01-05", 38, 0⟩, ⟨2, "E1", "2026-01-06", 5, 0⟩], 3⟩

/-- `dbTwenty` after recording 25 hours (split 25/0). -/
def db25 : DBState := ⟨[⟨"E1", "Ada", 20, 0⟩], [⟨1, "E1", "2026-01-05", 25, 0⟩], 2⟩

/-- `db25` after also recording 25 hours (split 25/0 again). -/
def db25'25 : DBState :=
  ⟨[⟨"E1", "Ada", 20, 0⟩], [⟨1, "E1", "2026-01-05", 25, 0⟩, ⟨2, "E1", "2026-01-06", 25, 0⟩], 3⟩

/-- C9: `summarise_hours` is the componentwise sum of per-entry splits:
each successful recording adds exactly its own `min h t` to the regular
total and `max 0 (h - t)` to the overtime total (no cross-entry carry);
an employee with no entries summarises to `(0, 0)` rather than an
error; recordings of 38 then 5 hours total `(43, 0)`; and recordings of
25 then 25 hours total `(50, 0)` — zero overtime although the combined
hours exceed the threshold. -/
theorem summarise_sums_per_entry_splits :
    (∀ (t : ℚ) (db : DBState) (i : String) (h : ℚ) (d : String) (db2 : DBState),
      record_hours t db i h d = .ok db2 →
      summarise_hours db2 i =
        ((summarise_hours db i).1 + min h t, (summarise_hours db i).2 + max 0 (h - t))) ∧
    (∀ (db : DBState) (i : String),
      db.time_entries.filter (fun e => e.employee_id == i) = [] →
      summarise_hours db i = (0, 0)) ∧
    record_hours 40 dbTwenty "E1" 38 "2026-01-05" = .ok db38 ∧
    record_hours 40 db38 "E1" 5 "2026-01-06" = .ok db38'5 ∧
    summarise_hours db38'5 "E1" = (43, 0) ∧
    record_hours 40 dbTwenty "E1" 25 "2026-01-05" = .ok db25 ∧
    record_hours 40 db25 "E1" 25 "2026-01-06" = .ok db25'25 ∧
    summarise_hours db25'25 "E1" = (50, 0) ∧
    summarise_hours dbTwenty "E1" = (0, 0) := by
  refine ⟨?_, ?_, ?_, ?_, ?_, ?_, ?_, ?_, ?_⟩
  · intro t db i h d db2 hok
    by_cases h1 : h < 0
    · simp [record_hours, h1] at hok
    by_cases h2 : (get_employee db i).isNone
    · simp [record_hours, h1, h2] at hok
    simp only [record_hours, if_neg h1, if_neg h2, Except.ok.injEq] at hok
    subst hok
    simp [summarise_hours, List.filter_append]
  · intro db i hempty
    simp [summarise_hours, hempty]
  · simp [record_hours, get_employee, dbTwenty, db38]
    norm_num [min_def, max_def]
  · simp [record_hours, get_employee, db38, db38'5]
    norm_num [min_def, max_def]
  · norm_num [summarise_hours, db38'5]
  · simp [record_hours, get_employee, dbTwenty, db25]
    norm_num [min_def, max_def]
  · simp [record_hours, get_employee, db25, db25'25]
    norm_num [min_def, max_def]
  · norm_num [summarise_hours, db25'25]
  · simp [summarise_hours, dbTwenty]

/-- Witness for `summarise_sums_per_entry_splits`: the per-entry
addition rule applied to the concrete second recording of 5 hours, and
the empty-summary rule applied to `dbTwenty`. -/
theorem summarise_sums_per_entry_splits_witness :
    summarise_hours db38'5 "E1" =
      ((summarise_hours db38 "E1").1 + min 5 40,
       (summarise_hours db38 "E1").2 + max 0 (5 - 40)) ∧
    summarise_hours dbTwenty "E1" = (0, 0) :=
  ⟨summarise_sums_per_entry_splits.1 40 db38 "E1" 5 "2026-01-06" db38'5
      summarise_sums_per_entry_splits.2.2.2.1,
   summarise_sums_per_entry_splits.2.1 dbTwenty "E1" rfl⟩

/-- C10: `update_employee` checks existence before validating: for an
absent id it fails with the not-found error whatever the supplied
fields are — invalid, valid, or absent altogether — so the not-found
error takes precedence over every validation error. -/
theorem update_notfound_precedence (db : DBState) (i : String)
    (nm : Option String) (hr : Option ℚ) (dp : Option ℤ)
    (habs : get_employee db i = none) :
    update_employee db i nm hr dp = .error (.notFoundError, db) := by
  simp [update_employee, habs]

/-- Witness for `update_notfound_precedence`: an absent id together
with an empty supplied name and a negative supplied rate still yields
the not-found error. -/
theorem update_notfound_precedence_witness :
    update_employee emptyDB "E9" (some "") (some (-5)) none =
      .error (.notFoundError, emptyDB) :=
  update_notfound_precedence emptyDB "E9" (some "") (some (-5)) none rfl
